import Mathlib

/-!
The librpc message identifier codec.

Shallow embedding of the message-identifier macros of
`gear-lib/librpc/librpc.h` (`BUILD_RPC_MSG_ID`, `GET_RPC_MSG_GROUP`,
`IS_RPC_MSG_NEED_RETURN`, `GET_RPC_MSG_DIR`, `GET_RPC_MSG_PARSE`) and the
constants they use.  A `uint32_t` is a natural number below `2 ^ 32`; the
cast `(uint32_t)x` and the left shift on `uint32_t` reduce modulo `2 ^ 32`.
-/

namespace Librpc

/-! ## Constants (librpc.h, lines 231-246 and 283-293) -/

def RPC_MSG_ID_MASK : Nat := 0xFFFFFFFF

def RPC_GROUP_BIT : Nat := 25
def RPC_GROUP_MASK : Nat := 0x07

def RPC_RET_BIT : Nat := 19
def RPC_RET_MASK : Nat := 0x01

def RPC_DIR_BIT : Nat := 18
def RPC_DIR_MASK : Nat := 0x01

def RPC_PARSE_BIT : Nat := 16
def RPC_PARSE_MASK : Nat := 0x03

def RPC_CMD_BIT : Nat := 0
def RPC_CMD_MASK : Nat := 0xFF

def _RPC_INNER_0 : Nat := 0
def _RPC_INNER_1 : Nat := 1
def _RPC_INNER_2 : Nat := 2
def _RPC_INNER_3 : Nat := 3
def _RPC_INNER_4 : Nat := 4
def _RPC_INNER_5 : Nat := 5
def _RPC_INNER_6 : Nat := 6
def _RPC_INNER_7 : Nat := 7
def _RPC_USER_BASE : Nat := 8

/-- The enumerators of `enum rpc_cmd_inner` that name inner commands. -/
def rpc_cmd_inner : List Nat :=
  [_RPC_INNER_0, _RPC_INNER_1, _RPC_INNER_2, _RPC_INNER_3,
   _RPC_INNER_4, _RPC_INNER_5, _RPC_INNER_6, _RPC_INNER_7]

/-! ## Machine arithmetic -/

/-- The C cast `(uint32_t)x`: the value reduced modulo `2 ^ 32`. -/
def u32 (x : Nat) : Nat := x % 2 ^ 32

/-- The C expression `a << k` evaluated in type `uint32_t`. -/
def shl32 (a k : Nat) : Nat := (a <<< k) % 2 ^ 32

/-! ## The macros (librpc.h, lines 248-265) -/

/-- First operand of the OR in `BUILD_RPC_MSG_ID`:
`((((uint32_t)group) & RPC_GROUP_MASK) << RPC_GROUP_BIT)`. -/
def groupBits (group : Nat) : Nat := shl32 (u32 group &&& RPC_GROUP_MASK) RPC_GROUP_BIT

/-- Second operand: `((((uint32_t)ret) & RPC_RET_MASK) << RPC_RET_BIT)`. -/
def retBits (ret : Nat) : Nat := shl32 (u32 ret &&& RPC_RET_MASK) RPC_RET_BIT

/-- Third operand: `((((uint32_t)dir) & RPC_DIR_MASK) << RPC_DIR_BIT)`. -/
def dirBits (dir : Nat) : Nat := shl32 (u32 dir &&& RPC_DIR_MASK) RPC_DIR_BIT

/-- Fourth operand: `((((uint32_t)parse) & RPC_PARSE_MASK) << RPC_PARSE_BIT)`. -/
def parseBits (parse : Nat) : Nat := shl32 (u32 parse &&& RPC_PARSE_MASK) RPC_PARSE_BIT

/-- Fifth operand: `((((uint32_t)cmd) & RPC_CMD_MASK) << RPC_CMD_BIT)`. -/
def cmdBits (cmd : Nat) : Nat := shl32 (u32 cmd &&& RPC_CMD_MASK) RPC_CMD_BIT

/-- Macro `BUILD_RPC_MSG_ID(group, ret, dir, parse, cmd)`: the bitwise OR of the five
shifted fields. -/
def BUILD_RPC_MSG_ID (group ret dir parse cmd : Nat) : Nat :=
  groupBits group ||| retBits ret ||| dirBits dir ||| parseBits parse ||| cmdBits cmd

/-- Macro `IS_RPC_MSG_NEED_RETURN(cmd)`. -/
def IS_RPC_MSG_NEED_RETURN (cmd : Nat) : Nat :=
  ((cmd &&& RPC_MSG_ID_MASK) >>> RPC_RET_BIT) &&& RPC_RET_MASK

/-- Macro `GET_RPC_MSG_GROUP(cmd)`. -/
def GET_RPC_MSG_GROUP (cmd : Nat) : Nat :=
  ((cmd &&& RPC_MSG_ID_MASK) >>> RPC_GROUP_BIT) &&& RPC_GROUP_MASK

/-- Macro `GET_RPC_MSG_DIR(cmd)`. -/
def GET_RPC_MSG_DIR (cmd : Nat) : Nat :=
  ((cmd &&& RPC_MSG_ID_MASK) >>> RPC_DIR_BIT) &&& RPC_DIR_MASK

/-- Macro `GET_RPC_MSG_PARSE(cmd)`. -/
def GET_RPC_MSG_PARSE (cmd : Nat) : Nat :=
  ((cmd &&& RPC_MSG_ID_MASK) >>> RPC_PARSE_BIT) &&& RPC_PARSE_MASK

/-! ## Arithmetic form of the bit operations -/

theorem and_mask_eq_mod (x n m : Nat) (hm : m = 2 ^ n - 1) : x &&& m = x % 2 ^ n := by
  subst hm
  exact Nat.and_pow_two_sub_one_eq_mod x n

theorem or_eq_add_of_lt (a b i : Nat) (hb : b < 2 ^ i) : a * 2 ^ i ||| b = a * 2 ^ i + b := by
  rw [Nat.mul_comm a (2 ^ i)]
  exact (Nat.mul_add_lt_is_or hb a).symm

theorem mul_pow_and_of_lt (a b i : Nat) (hb : b < 2 ^ i) : a * 2 ^ i &&& b = 0 := by
  apply Nat.eq_of_testBit_eq
  intro j
  rw [← Nat.shiftLeft_eq, Nat.testBit_and, Nat.testBit_shiftLeft, Nat.zero_testBit]
  by_cases h : i ≤ j
  · have hlt : b < 2 ^ j := Nat.lt_of_lt_of_le hb (Nat.pow_le_pow_right (by decide) h)
    rw [Nat.testBit_lt_two_pow hlt, Bool.and_false]
  · simp [h]

/-- Masking with `n` one-bits placed at bit `k` keeps exactly the bits
`k .. k+n-1` of `x`. -/
theorem and_shifted_mask (x k n : Nat) :
    x &&& (2 ^ n - 1) * 2 ^ k = x / 2 ^ k % 2 ^ n * 2 ^ k := by
  apply Nat.eq_of_testBit_eq
  intro j
  rw [← Nat.shiftLeft_eq, ← Nat.shiftLeft_eq, ← Nat.shiftRight_eq_div_pow]
  simp only [Nat.testBit_and, Nat.testBit_shiftLeft, Nat.testBit_two_pow_sub_one,
    Nat.testBit_mod_two_pow, Nat.testBit_shiftRight]
  by_cases h : k ≤ j
  · have hj : k + (j - k) = j := by omega
    rw [hj]
    cases x.testBit j <;> simp
  · simp [h]

theorem groupBits_eq (g : Nat) : groupBits g = g % 8 * 2 ^ 25 := by
  unfold groupBits shl32 u32 RPC_GROUP_MASK RPC_GROUP_BIT
  rw [and_mask_eq_mod (g % 2 ^ 32) 3 7 rfl, Nat.shiftLeft_eq]
  omega

theorem retBits_eq (r : Nat) : retBits r = r % 2 * 2 ^ 19 := by
  unfold retBits shl32 u32 RPC_RET_MASK RPC_RET_BIT
  rw [and_mask_eq_mod (r % 2 ^ 32) 1 1 rfl, Nat.shiftLeft_eq]
  omega

theorem dirBits_eq (d : Nat) : dirBits d = d % 2 * 2 ^ 18 := by
  unfold dirBits shl32 u32 RPC_DIR_MASK RPC_DIR_BIT
  rw [and_mask_eq_mod (d % 2 ^ 32) 1 1 rfl, Nat.shiftLeft_eq]
  omega

theorem parseBits_eq (p : Nat) : parseBits p = p % 4 * 2 ^ 16 := by
  unfold parseBits shl32 u32 RPC_PARSE_MASK RPC_PARSE_BIT
  rw [and_mask_eq_mod (p % 2 ^ 32) 2 3 rfl, Nat.shiftLeft_eq]
  omega

theorem cmdBits_eq (c : Nat) : cmdBits c = c % 256 := by
  unfold cmdBits shl32 u32 RPC_CMD_MASK RPC_CMD_BIT
  rw [and_mask_eq_mod (c % 2 ^ 32) 8 255 rfl, Nat.shiftLeft_eq]
  omega

/-- Arithmetic form of `BUILD_RPC_MSG_ID`: the five masked fields, each scaled
to its bit position, added up. -/
theorem build_eq_sum (g r d p c : Nat) :
    BUILD_RPC_MSG_ID g r d p c
      = g % 8 * 2 ^ 25 + r % 2 * 2 ^ 19 + d % 2 * 2 ^ 18 + p % 4 * 2 ^ 16 + c % 256 := by
  unfold BUILD_RPC_MSG_ID
  rw [groupBits_eq, retBits_eq, dirBits_eq, parseBits_eq, cmdBits_eq]
  rw [Nat.or_assoc, Nat.or_assoc, Nat.or_assoc]
  rw [or_eq_add_of_lt (p % 4) (c % 256) 16 (by omega)]
  rw [or_eq_add_of_lt (d % 2) _ 18 (by omega)]
  rw [or_eq_add_of_lt (r % 2) _ 19 (by omega)]
  rw [or_eq_add_of_lt (g % 8) _ 25 (by omega)]
  omega

theorem need_return_eq (x : Nat) : IS_RPC_MSG_NEED_RETURN x = x / 2 ^ 19 % 2 := by
  unfold IS_RPC_MSG_NEED_RETURN RPC_MSG_ID_MASK RPC_RET_MASK RPC_RET_BIT
  rw [and_mask_eq_mod x 32 0xFFFFFFFF rfl, and_mask_eq_mod _ 1 1 rfl, Nat.shiftRight_eq_div_pow]
  omega

theorem group_eq (x : Nat) : GET_RPC_MSG_GROUP x = x / 2 ^ 25 % 8 := by
  unfold GET_RPC_MSG_GROUP RPC_MSG_ID_MASK RPC_GROUP_MASK RPC_GROUP_BIT
  rw [and_mask_eq_mod x 32 0xFFFFFFFF rfl, and_mask_eq_mod _ 3 7 rfl, Nat.shiftRight_eq_div_pow]
  omega

theorem dir_eq (x : Nat) : GET_RPC_MSG_DIR x = x / 2 ^ 18 % 2 := by
  unfold GET_RPC_MSG_DIR RPC_MSG_ID_MASK RPC_DIR_MASK RPC_DIR_BIT
  rw [and_mask_eq_mod x 32 0xFFFFFFFF rfl, and_mask_eq_mod _ 1 1 rfl, Nat.shiftRight_eq_div_pow]
  omega

theorem parse_eq (x : Nat) : GET_RPC_MSG_PARSE x = x / 2 ^ 16 % 4 := by
  unfold GET_RPC_MSG_PARSE RPC_MSG_ID_MASK RPC_PARSE_MASK RPC_PARSE_BIT
  rw [and_mask_eq_mod x 32 0xFFFFFFFF rfl, and_mask_eq_mod _ 2 3 rfl, Nat.shiftRight_eq_div_pow]
  omega

/-- The AND with the union of the implemented field masks, in arithmetic form. -/
theorem and_field_masks (x : Nat) :
    x &&& 0x0E0F00FF = x / 2 ^ 25 % 8 * 2 ^ 25 + x / 2 ^ 16 % 16 * 2 ^ 16 + x % 256 := by
  have hm : (0x0E0F00FF : Nat)
      = (2 ^ 3 - 1) * 2 ^ 25 ||| ((2 ^ 4 - 1) * 2 ^ 16 ||| (2 ^ 8 - 1) * 2 ^ 0) := by decide
  rw [hm, Nat.and_or_distrib_left, Nat.and_or_distrib_left, and_shifted_mask, and_shifted_mask,
    and_shifted_mask]
  rw [or_eq_add_of_lt (x / 2 ^ 16 % 2 ^ 4) _ 16 (by omega)]
  rw [or_eq_add_of_lt (x / 2 ^ 25 % 2 ^ 3) _ 25 (by omega)]
  omega

/-! ## Extractors applied to a built identifier -/

theorem group_of_build (g r d p c : Nat) :
    GET_RPC_MSG_GROUP (BUILD_RPC_MSG_ID g r d p c) = g % 8 := by
  rw [group_eq, build_eq_sum]
  omega

theorem need_return_of_build (g r d p c : Nat) :
    IS_RPC_MSG_NEED_RETURN (BUILD_RPC_MSG_ID g r d p c) = r % 2 := by
  rw [need_return_eq, build_eq_sum]
  omega

theorem dir_of_build (g r d p c : Nat) :
    GET_RPC_MSG_DIR (BUILD_RPC_MSG_ID g r d p c) = d % 2 := by
  rw [dir_eq, build_eq_sum]
  omega

theorem parse_of_build (g r d p c : Nat) :
    GET_RPC_MSG_PARSE (BUILD_RPC_MSG_ID g r d p c) = p % 4 := by
  rw [parse_eq, build_eq_sum]
  omega

theorem low_bits_of_build (g r d p c : Nat) :
    BUILD_RPC_MSG_ID g r d p c % 256 = c % 256 := by
  rw [build_eq_sum]
  omega

/-! ## Message-identifier round trips -/

/-- C1, evaluated on the code: group 8 lies in the documented range [0,127], yet
the group extracted from `BUILD_RPC_MSG_ID(8, 0, 0, 0, 0)` is 0 and not 8,
because `RPC_GROUP_MASK` is `0x07`. -/
theorem group_roundtrip_breaks_at_8 :
    GET_RPC_MSG_GROUP (BUILD_RPC_MSG_ID 8 0 0 0 0) = 0 ∧
    GET_RPC_MSG_GROUP (BUILD_RPC_MSG_ID 8 0 0 0 0) ≠ 8 := by
  decide

/-- C2 as stated fails: command 256 lies in [0,65535], but bits 15..0 of
`BUILD_RPC_MSG_ID(0, 0, 0, 0, 256)` are 0, not 256. -/
theorem command_roundtrip_fails_at_256 :
    BUILD_RPC_MSG_ID 0 0 0 0 256 % 65536 = 0 ∧
    BUILD_RPC_MSG_ID 0 0 0 0 256 % 65536 ≠ 256 := by
  decide

/-- C2, amended: for every command in [0,255] and every group, return_needed,
direction and parser_kind, bits 15..0 of the built identifier equal the
command. -/
theorem command_roundtrip (g r d p c : Nat) (hc : c ≤ 255) :
    BUILD_RPC_MSG_ID g r d p c % 65536 = c := by
  rw [build_eq_sum]
  omega

/-- Instance of `command_roundtrip` at the largest command the mask keeps. -/
theorem command_roundtrip_witness :
    255 ≤ 255 ∧ BUILD_RPC_MSG_ID 127 1 1 3 255 % 65536 = 255 :=
  ⟨by decide, command_roundtrip 127 1 1 3 255 (by decide)⟩

/-- C3: for return_needed and direction in {0,1} and parser_kind in [0,3], and
any group and command value, the three flag extractors applied to the built
identifier return return_needed, direction and parser_kind. -/
theorem flag_roundtrip (g r d p c : Nat) (hr : r ≤ 1) (hd : d ≤ 1) (hp : p ≤ 3) :
    IS_RPC_MSG_NEED_RETURN (BUILD_RPC_MSG_ID g r d p c) = r ∧
    GET_RPC_MSG_DIR (BUILD_RPC_MSG_ID g r d p c) = d ∧
    GET_RPC_MSG_PARSE (BUILD_RPC_MSG_ID g r d p c) = p := by
  rw [need_return_eq, dir_eq, parse_eq, build_eq_sum]
  omega

/-- Instance of `flag_roundtrip` with all bits of group and command set. -/
theorem flag_roundtrip_witness :
    (1 ≤ 1 ∧ 0 ≤ 1 ∧ 2 ≤ 3) ∧
    IS_RPC_MSG_NEED_RETURN (BUILD_RPC_MSG_ID 0xFFFFFFFF 1 0 2 0xFFFFFFFF) = 1 ∧
    GET_RPC_MSG_DIR (BUILD_RPC_MSG_ID 0xFFFFFFFF 1 0 2 0xFFFFFFFF) = 0 ∧
    GET_RPC_MSG_PARSE (BUILD_RPC_MSG_ID 0xFFFFFFFF 1 0 2 0xFFFFFFFF) = 2 :=
  ⟨by decide,
    flag_roundtrip 0xFFFFFFFF 1 0 2 0xFFFFFFFF (by decide) (by decide) (by decide)⟩

/-- C4: `BUILD_RPC_MSG_ID` is total, yields a 32-bit value, and only the low
7, 1, 1, 2 and 16 bits of its arguments can reach the result: reducing the
arguments modulo 128, 2, 2, 4 and 65536 does not change the identifier. -/
theorem build_wraps (g r d p c : Nat) :
    BUILD_RPC_MSG_ID g r d p c
      = BUILD_RPC_MSG_ID (g % 128) (r % 2) (d % 2) (p % 4) (c % 65536) ∧
    BUILD_RPC_MSG_ID g r d p c < 2 ^ 32 := by
  rw [build_eq_sum, build_eq_sum]
  omega

/-- C5: for every value x the flag extractors are the mask-and-shift of the
documented bit positions, their results lie in {0,1}, {0,1} and [0,3], and
clearing every bit of x outside the extracted field leaves the result
unchanged. -/
theorem flag_extractors_mask_shift (x : Nat) :
    (IS_RPC_MSG_NEED_RETURN x = x / 2 ^ 19 % 2 ∧
      GET_RPC_MSG_DIR x = x / 2 ^ 18 % 2 ∧
      GET_RPC_MSG_PARSE x = x / 2 ^ 16 % 4) ∧
    (IS_RPC_MSG_NEED_RETURN x ≤ 1 ∧ GET_RPC_MSG_DIR x ≤ 1 ∧ GET_RPC_MSG_PARSE x ≤ 3) ∧
    (IS_RPC_MSG_NEED_RETURN (x &&& 0x00080000) = IS_RPC_MSG_NEED_RETURN x ∧
      GET_RPC_MSG_DIR (x &&& 0x00040000) = GET_RPC_MSG_DIR x ∧
      GET_RPC_MSG_PARSE (x &&& 0x00030000) = GET_RPC_MSG_PARSE x) := by
  have h19 : (0x00080000 : Nat) = (2 ^ 1 - 1) * 2 ^ 19 := by decide
  have h18 : (0x00040000 : Nat) = (2 ^ 1 - 1) * 2 ^ 18 := by decide
  have h16 : (0x00030000 : Nat) = (2 ^ 2 - 1) * 2 ^ 16 := by decide
  refine ⟨⟨need_return_eq x, dir_eq x, parse_eq x⟩, ⟨?_, ?_, ?_⟩, ⟨?_, ?_, ?_⟩⟩
  · rw [need_return_eq]
    omega
  · rw [dir_eq]
    omega
  · rw [parse_eq]
    omega
  · rw [h19, and_shifted_mask, need_return_eq, need_return_eq]
    omega
  · rw [h18, and_shifted_mask, dir_eq, dir_eq]
    omega
  · rw [h16, and_shifted_mask, parse_eq, parse_eq]
    omega

/-- C7: the mask constants implement a 3-bit group and an 8-bit command: the
group extracted from a built identifier is `g mod 8`, and the low 16 bits of
the identifier are `c mod 256`. -/
theorem masks_three_bit_group_eight_bit_command (g r d p c : Nat) :
    GET_RPC_MSG_GROUP (BUILD_RPC_MSG_ID g r d p c) = g % 8 ∧
    BUILD_RPC_MSG_ID g r d p c % 65536 = c % 256 := by
  rw [group_eq, build_eq_sum]
  omega

/-- C8 as stated fails: 256 is a user command (8 <= 256 <= 65535), but the
command field of `BUILD_RPC_MSG_ID(0, 0, 0, 0, 256)` is `_RPC_INNER_0`. -/
theorem user_command_256_encodes_inner_0 :
    (_RPC_USER_BASE ≤ 256 ∧ 256 ≤ 65535) ∧
    BUILD_RPC_MSG_ID 0 0 0 0 256 % 65536 = _RPC_INNER_0 ∧
    BUILD_RPC_MSG_ID 0 0 0 0 256 % 65536 ∈ rpc_cmd_inner := by
  decide

/-- C8, amended: for every command c with `_RPC_USER_BASE` (8) <= c <= 255 and
every group, return_needed, direction and parser_kind, the command field of
the built identifier is none of the inner commands
`_RPC_INNER_0 .. _RPC_INNER_7`. -/
theorem user_command_not_inner (g r d p c : Nat) (hlo : _RPC_USER_BASE ≤ c) (hhi : c ≤ 255) :
    BUILD_RPC_MSG_ID g r d p c % 65536 ∉ rpc_cmd_inner := by
  have hf : BUILD_RPC_MSG_ID g r d p c % 65536 = c := by
    rw [build_eq_sum]
    omega
  rw [hf]
  unfold _RPC_USER_BASE at hlo
  simp only [rpc_cmd_inner, _RPC_INNER_0, _RPC_INNER_1, _RPC_INNER_2, _RPC_INNER_3,
    _RPC_INNER_4, _RPC_INNER_5, _RPC_INNER_6, _RPC_INNER_7, List.mem_cons, List.mem_nil_iff,
    or_false, not_or]
  omega

/-- Instance of `user_command_not_inner` at user command 200. -/
theorem user_command_not_inner_witness :
    (_RPC_USER_BASE ≤ 200 ∧ 200 ≤ 255) ∧
    BUILD_RPC_MSG_ID 5 1 0 1 200 % 65536 ∉ rpc_cmd_inner :=
  ⟨by decide, user_command_not_inner 5 1 0 1 200 (by decide) (by decide)⟩

/-- C9: rebuilding an identifier from its own extracted fields (the identifier
itself passed as the command argument) returns every built identifier
unchanged, and for an arbitrary value x returns x with all bits outside the
implemented field masks cleared, `x AND 0x0E0F00FF`. -/
theorem rebuild_identity_on_built :
    (∀ g r d p c : Nat,
      BUILD_RPC_MSG_ID
          (GET_RPC_MSG_GROUP (BUILD_RPC_MSG_ID g r d p c))
          (IS_RPC_MSG_NEED_RETURN (BUILD_RPC_MSG_ID g r d p c))
          (GET_RPC_MSG_DIR (BUILD_RPC_MSG_ID g r d p c))
          (GET_RPC_MSG_PARSE (BUILD_RPC_MSG_ID g r d p c))
          (BUILD_RPC_MSG_ID g r d p c)
        = BUILD_RPC_MSG_ID g r d p c) ∧
    (∀ x : Nat,
      BUILD_RPC_MSG_ID (GET_RPC_MSG_GROUP x) (IS_RPC_MSG_NEED_RETURN x) (GET_RPC_MSG_DIR x)
          (GET_RPC_MSG_PARSE x) x
        = x &&& 0x0E0F00FF) := by
  constructor
  · intro g r d p c
    rw [group_of_build, need_return_of_build, dir_of_build, parse_of_build]
    rw [build_eq_sum _ _ _ _ (BUILD_RPC_MSG_ID g r d p c), low_bits_of_build, build_eq_sum]
    omega
  · intro x
    rw [build_eq_sum, group_eq, need_return_eq, dir_eq, parse_eq, and_field_masks]
    omega

/-- C10: bits 24..20 of every built identifier are zero, each shifted field
stays inside its own bit range, any two of the five shifted fields have no
bit in common, and the OR that combines them equals their sum. -/
theorem unused_bits_zero_or_is_sum (g r d p c : Nat) :
    BUILD_RPC_MSG_ID g r d p c &&& 0x01F00000 = 0 ∧
    (groupBits g &&& 0x0E000000 = groupBits g ∧
      retBits r &&& 0x00080000 = retBits r ∧
      dirBits d &&& 0x00040000 = dirBits d ∧
      parseBits p &&& 0x00030000 = parseBits p ∧
      cmdBits c &&& 0x000000FF = cmdBits c) ∧
    (groupBits g &&& retBits r = 0 ∧ groupBits g &&& dirBits d = 0 ∧
      groupBits g &&& parseBits p = 0 ∧ groupBits g &&& cmdBits c = 0 ∧
      retBits r &&& dirBits d = 0 ∧ retBits r &&& parseBits p = 0 ∧
      retBits r &&& cmdBits c = 0 ∧ dirBits d &&& parseBits p = 0 ∧
      dirBits d &&& cmdBits c = 0 ∧ parseBits p &&& cmdBits c = 0) ∧
    BUILD_RPC_MSG_ID g r d p c
      = groupBits g + retBits r + dirBits d + parseBits p + cmdBits c := by
  have hG : (0x0E000000 : Nat) = (2 ^ 3 - 1) * 2 ^ 25 := by decide
  have hR : (0x00080000 : Nat) = (2 ^ 1 - 1) * 2 ^ 19 := by decide
  have hD : (0x00040000 : Nat) = (2 ^ 1 - 1) * 2 ^ 18 := by decide
  have hP : (0x00030000 : Nat) = (2 ^ 2 - 1) * 2 ^ 16 := by decide
  have hC : (0x000000FF : Nat) = (2 ^ 8 - 1) * 2 ^ 0 := by decide
  have hU : (0x01F00000 : Nat) = (2 ^ 5 - 1) * 2 ^ 20 := by decide
  refine ⟨?_, ⟨?_, ?_, ?_, ?_, ?_⟩, ⟨?_, ?_, ?_, ?_, ?_, ?_, ?_, ?_, ?_, ?_⟩, ?_⟩
  · rw [hU, and_shifted_mask, build_eq_sum]
    omega
  · rw [hG, and_shifted_mask, groupBits_eq]
    omega
  · rw [hR, and_shifted_mask, retBits_eq]
    omega
  · rw [hD, and_shifted_mask, dirBits_eq]
    omega
  · rw [hP, and_shifted_mask, parseBits_eq]
    omega
  · rw [hC, and_shifted_mask, cmdBits_eq]
    omega
  · rw [groupBits_eq, retBits_eq]
    exact mul_pow_and_of_lt _ _ 25 (by omega)
  · rw [groupBits_eq, dirBits_eq]
    exact mul_pow_and_of_lt _ _ 25 (by omega)
  · rw [groupBits_eq, parseBits_eq]
    exact mul_pow_and_of_lt _ _ 25 (by omega)
  · rw [groupBits_eq, cmdBits_eq]
    exact mul_pow_and_of_lt _ _ 25 (by omega)
  · rw [retBits_eq, dirBits_eq]
    exact mul_pow_and_of_lt _ _ 19 (by omega)
  · rw [retBits_eq, parseBits_eq]
    exact mul_pow_and_of_lt _ _ 19 (by omega)
  · rw [retBits_eq, cmdBits_eq]
    exact mul_pow_and_of_lt _ _ 19 (by omega)
  · rw [dirBits_eq, parseBits_eq]
    exact mul_pow_and_of_lt _ _ 18 (by omega)
  · rw [dirBits_eq, cmdBits_eq]
    exact mul_pow_and_of_lt _ _ 18 (by omega)
  · rw [parseBits_eq, cmdBits_eq]
    exact mul_pow_and_of_lt _ _ 16 (by omega)
  · rw [build_eq_sum, groupBits_eq, retBits_eq, dirBits_eq, parseBits_eq, cmdBits_eq]

end Librpc
